import Mathlib

/-!
A shallow embedding of the whisper local speech-to-text command server and
client (`server.py`, `client.py`): the session coordinator
(`TranscriptionServer`), the recorder's transcription wrapper (`Recorder`),
the per-connection handler (`handle_client_connection`) and the client's
response decoding (`send_command_recv`), together with theorems about the
wire framing and the start/stop state machine.

External collaborators (sounddevice, whisper, pyperclip) are modelled as
explicit outcome parameters plus an effect trace.  Wall-clock timing, the
raw audio sample buffer and the WPM statistics of `transcribe_audio`
(print-only, apart from `ewma_wpm`, which no modelled behaviour reads) are
outside the model.  Each lock-protected operation body is modelled as one
atomic step, which is faithful because every body in `server.py` runs in
its entirety while holding the corresponding lock.
-/

namespace WhisperServer

/-- Module-level constant `DEFAULT_DURATION = 120` of `server.py`. -/
def DEFAULT_DURATION : Nat := 120

/-- Side effects the server performs against its external collaborators
(`sd.rec`, `sd.stop`, `pyperclip.copy`), recorded as a trace. -/
inductive Effect where
  | sdRec (frames : Nat) (samplerate : Nat)
  | sdStop
  | clipboardCopy (text : String)
deriving DecidableEq

/-- The `Recorder` state that the modelled control flow reads or writes:
`fs`, `duration` and `copy_to_clipboard` from `Recorder.__init__`.
`start_time`, the audio buffer `recording` and the WPM/EWMA statistics are
not modelled (wall clock, audio data and floating point). -/
structure Recorder where
  fs : Nat
  duration : Nat
  copy_to_clipboard : Bool
deriving DecidableEq

/-- Defaults of `Recorder.__init__`: 16 kHz sample rate, the default
duration limit, clipboard copying enabled. -/
def Recorder.init : Recorder :=
  { fs := 16000, duration := DEFAULT_DURATION, copy_to_clipboard := true }

/-- Modelled `Recorder.start_recording`: the effect of
`sd.rec(int(self.fs * self.duration), samplerate=self.fs, channels=1)`.
Setting `start_time` and the returned buffer are not modelled. -/
def Recorder.start_recording (r : Recorder) : List Effect :=
  [Effect.sdRec (r.fs * r.duration) r.fs]

/-- Outcome of the body of the `try` block in `Recorder.transcribe_audio`:
either `self.model.transcribe` succeeds, yielding a detected language and
the segment texts, or an exception (in particular one raised by
`self.model.transcribe`) occurs inside the `try` block. -/
inductive ModelOutcome where
  | ok (language : String) (segments : List String)
  | raises (msg : String)
deriving DecidableEq

/-- The post-processing `transcribe_audio` applies to the segment texts:
`"\n".join(f["text"].lstrip() for f in r["segments"])` followed by
`.rstrip().lstrip()`. -/
def pyTranscript (segments : List String) : String :=
  (String.intercalate "\n" (segments.map String.trimLeft)).trimRight.trimLeft

/-- Modelled `Recorder.transcribe_audio`.  On success the processed text is
copied to the clipboard when `copy_to_clipboard` is set, and returned.  On
an exception `e` anywhere in the `try` block the function returns the
string `"Error during transcription:\n" + str(e)` as a NORMAL return
value: the exception does not escape `transcribe_audio`. -/
def Recorder.transcribe_audio (r : Recorder) (m : ModelOutcome) :
    List Effect × String :=
  match m with
  | ModelOutcome.ok _language segments =>
      let transcribed_text := pyTranscript segments
      ((if r.copy_to_clipboard then [Effect.clipboardCopy transcribed_text] else []),
        transcribed_text)
  | ModelOutcome.raises e => ([], "Error during transcription:\n" ++ e)

/-- Outcome of `Recorder.stop_recording`: either `sd.stop()`, the
elapsed-time buffer slicing and `transcribe_audio` all run (with `m` the
outcome inside `transcribe_audio`'s `try`), or an exception escapes
`stop_recording` itself (e.g. from `sd.stop` or the buffer slicing, which
sit outside `transcribe_audio`'s `try`). -/
inductive StopOutcome where
  | runs (m : ModelOutcome)
  | raises (msg : String)
deriving DecidableEq

/-- Modelled `Recorder.stop_recording`: `sd.stop()`, truncate the buffer to
the elapsed time (buffer not modelled), then `transcribe_audio`.  An
exception escaping it is an `Except.error`. -/
def Recorder.stop_recording (r : Recorder) (out : StopOutcome) :
    Except String (List Effect × String) :=
  match out with
  | StopOutcome.raises e => Except.error e
  | StopOutcome.runs m =>
      let (effs, text) := r.transcribe_audio m
      Except.ok (Effect.sdStop :: effs, text)

/-- The `TranscriptionServer` state: the single shared recorder and the
`is_recording` flag (the `transcription_queue` field is never read). -/
structure TranscriptionServer where
  recorder : Recorder
  is_recording : Bool
deriving DecidableEq

/-- `TranscriptionServer.__init__`. -/
def TranscriptionServer.init : TranscriptionServer :=
  { recorder := Recorder.init, is_recording := false }

/-- Python truthiness of the optional `duration` argument: both `None` and
`0` are falsy in `if duration:`. -/
def pyTruthy : Option Nat → Bool
  | none => false
  | some n => n != 0

/-- Modelled `TranscriptionServer.start_recording`; the whole body runs
under `recording_lock`, so it is one atomic step.  Returns the new state,
the effect trace of the call, and the `(success, message)` pair. -/
def TranscriptionServer.start_recording (s : TranscriptionServer)
    (duration : Option Nat) : TranscriptionServer × List Effect × Bool × String :=
  if s.is_recording then
    (s, [], false, "Error: Already recording")
  else
    let r1 := { s.recorder with
                duration := if pyTruthy duration then duration.getD DEFAULT_DURATION
                            else DEFAULT_DURATION }
    ({ s with is_recording := true, recorder := r1 },
      r1.start_recording, true, "Recording started")

/-- Modelled `TranscriptionServer.stop_recording_and_transcribe`.  Under
`recording_lock` it checks and clears `is_recording`; then under
`transcribing_lock` it sets the recorder's clipboard flag and calls
`recorder.stop_recording()` inside `try/except`, turning an exception `e`
that escapes that call into `(False, "Error during transcription: " + str(e))`. -/
def TranscriptionServer.stop_recording_and_transcribe (s : TranscriptionServer)
    (out : StopOutcome) (copy_to_clipboard : Bool) :
    TranscriptionServer × List Effect × Bool × String :=
  if !s.is_recording then
    (s, [], false, "Error: Not currently recording")
  else
    let s1 := { s with is_recording := false }
    let r1 := { s1.recorder with copy_to_clipboard := copy_to_clipboard }
    let s2 := { s1 with recorder := r1 }
    match r1.stop_recording out with
    | Except.ok (effs, transcription) => (s2, effs, true, transcription)
    | Except.error e => (s2, [], false, "Error during transcription: " ++ e)

/-- The 4-byte big-endian encoding `struct.pack(">I", n)`; defined here for
every `n`, while `struct.pack` raises `struct.error` for `n ≥ 2^32`, so
only values below `2^32` ever reach the wire. -/
def packU32 (n : Nat) : List Nat :=
  [n / 16777216 % 256, n / 65536 % 256, n / 256 % 256, n % 256]

/-- UTF-8 encoding of one character, as in Python `str.encode("utf-8")`. -/
def utf8EncodeChar (c : Char) : List Nat :=
  let n := c.toNat
  if n < 128 then [n]
  else if n < 2048 then [192 + n / 64, 128 + n % 64]
  else if n < 65536 then [224 + n / 4096, 128 + n / 64 % 64, 128 + n % 64]
  else [240 + n / 262144, 128 + n / 4096 % 64, 128 + n / 64 % 64, 128 + n % 64]

/-- UTF-8 encoding of a string as a byte list (`str.encode("utf-8")`). -/
def utf8Encode (s : String) : List Nat :=
  s.data.flatMap utf8EncodeChar

/-- One decoded client request: the mandatory 4-byte big-endian opcode, and
the second 4-byte argument when it is already buffered at the
`select.select([sock], [], [], 0)` probe (`extra = none` models "no bytes
ready right now", in which case no second `struct.unpack` happens). -/
structure Request where
  command : Nat
  extra : Option Nat
deriving DecidableEq

/-- Python `int(not success)`: the error flag of a response frame. -/
def pyInt (b : Bool) : Nat := if b then 1 else 0

/-- Modelled `handle_client_connection`: dispatch on the opcode, call the
coordinator, and build the byte frame passed to `sendall`.  Returns the
new server state, the effect trace and the frame (`none` when no branch
matches, so the socket is closed by the `finally` block without any
response; the stop-collaborator outcome `out` is consumed only by the
opcode-2 branch).  Note that the start branch frames `len(response)` of a
STRING (its character count) while the stop branch frames `len(response)`
of the ENCODED bytes. -/
def handle_client_connection (s : TranscriptionServer) (req : Request)
    (out : StopOutcome) : TranscriptionServer × List Effect × Option (List Nat) :=
  if req.command = 1 then
    let duration := req.extra
    let (s1, effs, success, response) := s.start_recording duration
    (s1, effs,
      some (packU32 (pyInt (!success)) ++ packU32 response.length ++ utf8Encode response))
  else if req.command = 2 then
    let copy_to_clipboard := req.extra.isNone
    let (s1, effs, success, transcription) :=
      s.stop_recording_and_transcribe out copy_to_clipboard
    let response := utf8Encode transcription
    (s1, effs,
      some (packU32 (pyInt (!success)) ++ packU32 response.length ++ response))
  else
    (s, [], none)

/-- `struct.unpack(">I", bs[:4])[0]`.  Total on lists: every frame the
theorems consider carries at least four bytes here, while Python would
raise on fewer. -/
def unpackU32 : List Nat → Nat
  | b0 :: b1 :: b2 :: b3 :: _ => ((b0 * 256 + b1) * 256 + b2) * 256 + b3
  | _ => 0

/-- The client's receive loop in `send_command`: accumulate `recv(4096)`
packets until at least `needed` bytes have arrived or the stream is
exhausted; each `recv` is modelled as returning the next (up to) 4096
available bytes. -/
def recvAll (needed : Nat) (stream : List Nat) : List Nat :=
  if needed = 0 then []
  else
    match stream with
    | [] => []
    | b :: rest =>
        let packet := (b :: rest).take 4096
        packet ++ recvAll (needed - packet.length) ((b :: rest).drop 4096)
termination_by stream.length
decreasing_by
  simp [List.length_drop]
  omega

/-- The receive half of the client's `send_command`: read the 4-byte error
flag and the 4-byte length, then, only when the length is positive, read
the payload bytes and return the pair (the Python code then utf-8-decodes
the bytes).  When the length is zero the `if response_length > 0:` block is
skipped and the function implicitly returns `None`, modelled as `none`. -/
def send_command_recv (stream : List Nat) : Option (Nat × List Nat) :=
  let is_error := unpackU32 stream
  let rest1 := stream.drop 4
  let response_length := unpackU32 rest1
  let rest2 := rest1.drop 4
  if response_length > 0 then
    some (is_error, recvAll response_length rest2)
  else
    none

/-- The response frame the server's stop branch passes to `sendall`: error
flag, byte length of the payload, then the payload bytes.  This is also
the general shape of every server response frame. -/
def encode_response (errorFlag : Nat) (payload : List Nat) : List Nat :=
  packU32 errorFlag ++ packU32 payload.length ++ payload

/-- Sequential execution of a batch of `start_recording` calls, one per
client thread.  Because the whole body of `start_recording` runs while
holding `recording_lock`, every interleaving of concurrent calls is
equivalent to running the critical sections in the order the lock grants
them; quantifying over the order of the list therefore quantifies over all
interleavings.  Returns the final state and every call's
`(success, message)` result in lock-grant order. -/
def runBegins (s : TranscriptionServer) :
    List (Option Nat) → TranscriptionServer × List (Bool × String)
  | [] => (s, [])
  | d :: ds =>
      let (s1, _effs, success, msg) := s.start_recording d
      let (s2, results) := runBegins s1 ds
      (s2, (success, msg) :: results)

/-! Helper lemmas. -/

/-- `start_recording` while a recording is active: error, no state change,
no effects. -/
theorem start_recording_already (s : TranscriptionServer) (d : Option Nat)
    (h : s.is_recording = true) :
    s.start_recording d = (s, [], false, "Error: Already recording") := by
  simp [TranscriptionServer.start_recording, h]

/-- `start_recording` while idle: the flag is set, the duration limit is
chosen by Python truthiness of the argument, capture starts, and the call
succeeds. -/
theorem start_recording_idle (s : TranscriptionServer) (d : Option Nat)
    (h : s.is_recording = false) :
    s.start_recording d =
      ({ s with
          is_recording := true
          recorder := { s.recorder with
            duration := if pyTruthy d then d.getD DEFAULT_DURATION
                        else DEFAULT_DURATION } },
        [Effect.sdRec (s.recorder.fs *
            (if pyTruthy d then d.getD DEFAULT_DURATION else DEFAULT_DURATION))
          s.recorder.fs],
        true, "Recording started") := by
  simp [TranscriptionServer.start_recording, h, Recorder.start_recording]

/-- `stop_recording_and_transcribe` while idle: error, no state change, no
effects. -/
theorem stop_recording_and_transcribe_idle (s : TranscriptionServer)
    (out : StopOutcome) (c : Bool) (h : s.is_recording = false) :
    s.stop_recording_and_transcribe out c =
      (s, [], false, "Error: Not currently recording") := by
  simp [TranscriptionServer.stop_recording_and_transcribe, h]

/-- `stop_recording_and_transcribe` while recording, with the transcription
wrapper running to completion on a successful `model.transcribe`. -/
theorem stop_recording_and_transcribe_ok (s : TranscriptionServer)
    (lang : String) (segs : List String) (c : Bool) (h : s.is_recording = true) :
    s.stop_recording_and_transcribe (StopOutcome.runs (ModelOutcome.ok lang segs)) c =
      ({ s with
          is_recording := false
          recorder := { s.recorder with copy_to_clipboard := c } },
        Effect.sdStop ::
          (if c then [Effect.clipboardCopy (pyTranscript segs)] else []),
        true, pyTranscript segs) := by
  simp [TranscriptionServer.stop_recording_and_transcribe, h,
    Recorder.stop_recording, Recorder.transcribe_audio]

/-- A batch of `begin()` calls entered while a recording is already active
all fail with `Already recording` and leave the state untouched. -/
theorem runBegins_recording (ds : List (Option Nat)) :
    ∀ s : TranscriptionServer, s.is_recording = true →
      runBegins s ds =
        (s, List.replicate ds.length (false, "Error: Already recording")) := by
  induction ds with
  | nil => intro s h; rfl
  | cons d ds ih =>
      intro s h
      simp [runBegins, start_recording_already s d h, ih s h,
        List.replicate_succ]

/-- A nonempty batch of `begin()` calls entered while idle: the first one
granted the lock succeeds, all the others fail. -/
theorem runBegins_idle (s : TranscriptionServer) (d : Option Nat)
    (ds : List (Option Nat)) (h : s.is_recording = false) :
    (runBegins s (d :: ds)).2 =
      (true, "Recording started") ::
        List.replicate ds.length (false, "Error: Already recording") := by
  simp only [runBegins, start_recording_idle s d h]
  rw [runBegins_recording ds _ rfl]

/-- Big-endian 4-byte round trip below `2^32`. -/
theorem unpackU32_packU32 (n : Nat) (rest : List Nat) (h : n < 4294967296) :
    unpackU32 (packU32 n ++ rest) = n := by
  simp only [packU32, List.cons_append, List.nil_append, unpackU32]
  omega

/-- Dropping the 4-byte error-flag field of a frame. -/
theorem drop4_packU32 (n : Nat) (rest : List Nat) :
    (packU32 n ++ rest).drop 4 = rest := by
  simp [packU32]

/-- Dropping the 8 header bytes of a frame leaves the payload. -/
theorem drop8_frame (a b : Nat) (p : List Nat) :
    (packU32 a ++ (packU32 b ++ p)).drop 8 = p := by
  simp [packU32]

/-! Claim theorems. -/

/-- C1: counter-evidence.  At the failing input — a recording in progress
and `model.transcribe` raising `Exception("boom")` while handling the stop
command — the fault is swallowed inside `transcribe_audio`, which returns
the error text as an ordinary value, so `stop_recording_and_transcribe`
reports success and the handler frames error flag 0: the fault IS reported
as a success response, while the claim requires `errorFlag = 1`.  (The
`try/except` in `stop_recording_and_transcribe` that would produce
`errorFlag = 1` is reached only by exceptions escaping `stop_recording`
outside `transcribe_audio`'s own `try`.) -/
theorem c1_transcriber_fault_masked_as_success :
    handle_client_connection (TranscriptionServer.init.start_recording none).1
        { command := 2, extra := none }
        (StopOutcome.runs (ModelOutcome.raises "boom")) =
      ({ recorder := { fs := 16000, duration := 120, copy_to_clipboard := true },
         is_recording := false },
        [Effect.sdStop],
        some (packU32 0 ++ packU32 32 ++
          utf8Encode "Error during transcription:\nboom")) := by
  rfl

/-- C2 counterexample: the response frame to a start command with no
duration from the idle initial state carries payload length 17 (the byte
length of "Recording started"), not 11 as the claim states. -/
theorem c2_counterexample_payload_length_not_eleven :
    unpackU32 (((handle_client_connection TranscriptionServer.init
        { command := 1, extra := none }
        (StopOutcome.runs (ModelOutcome.ok "en" []))).2.2.getD []).drop 4) ≠ 11 := by
  decide

/-- C2 (amended): when no recording is active, a start command (opcode 1)
with no duration argument is answered with the frame
(errorFlag = 0, payloadLength = 17, payload "Recording started"). -/
theorem c2_start_response_frame (s : TranscriptionServer) (out : StopOutcome)
    (h : s.is_recording = false) :
    (handle_client_connection s { command := 1, extra := none } out).2.2 =
      some (packU32 0 ++ packU32 17 ++ utf8Encode "Recording started") := by
  simp [handle_client_connection, start_recording_idle s none h, pyInt]
  decide

/-- C2 witness: the amended claim at the concrete initial state. -/
theorem c2_start_response_frame_witness :
    TranscriptionServer.init.is_recording = false ∧
      (handle_client_connection TranscriptionServer.init
          { command := 1, extra := none }
          (StopOutcome.runs (ModelOutcome.ok "en" []))).2.2 =
        some (packU32 0 ++ packU32 17 ++ utf8Encode "Recording started") :=
  ⟨rfl, c2_start_response_frame TranscriptionServer.init
    (StopOutcome.runs (ModelOutcome.ok "en" [])) rfl⟩

/-- C3 counterexample: at opcode 3 the handler writes NO frame at all
(`none`): no branch of the `if/elif` matches and the `finally` block just
closes the socket, so no error frame with a descriptive message is sent. -/
theorem c3_counterexample_unknown_opcode_unanswered :
    (handle_client_connection TranscriptionServer.init
        { command := 3, extra := none }
        (StopOutcome.runs (ModelOutcome.ok "en" []))).2.2 = none := by
  rfl

/-- C3 (amended): a request whose opcode is neither 1 nor 2 is decoded
successfully and does not crash the handler, but it is answered with no
response frame whatsoever: the server state is untouched, no collaborator
is invoked, and the connection is closed without a reply. -/
theorem c3_unknown_opcode_no_response (s : TranscriptionServer) (req : Request)
    (out : StopOutcome) (h1 : req.command ≠ 1) (h2 : req.command ≠ 2) :
    handle_client_connection s req out = (s, [], none) := by
  simp [handle_client_connection, h1, h2]

/-- C3 witness: the amended claim at the concrete opcode 5. -/
theorem c3_unknown_opcode_no_response_witness :
    (5 : Nat) ≠ 1 ∧ (5 : Nat) ≠ 2 ∧
      handle_client_connection TranscriptionServer.init
          { command := 5, extra := some 9 }
          (StopOutcome.runs (ModelOutcome.ok "en" [])) =
        (TranscriptionServer.init, [], none) :=
  ⟨by decide, by decide,
    c3_unknown_opcode_no_response TranscriptionServer.init
      { command := 5, extra := some 9 }
      (StopOutcome.runs (ModelOutcome.ok "en" [])) (by decide) (by decide)⟩

/-- C4 counterexample: a begin with a provided, decoded duration of 0 does
NOT set the session's duration limit to 0 — `if duration:` is falsy for 0,
so the limit falls back to the default 120. -/
theorem c4_counterexample_zero_duration :
    (TranscriptionServer.init.start_recording (some 0)).1.recorder.duration ≠ 0 := by
  decide

/-- C4 (amended): for every `begin()` while idle, a provided NONZERO
duration sets the session's duration limit to that value; an absent
duration, or a provided duration of 0 (falsy in Python), sets it to the
default constant 120; in all these cases the call succeeds with
"Recording started". -/
theorem c4_begin_duration_selection (s : TranscriptionServer) (d : Option Nat)
    (h : s.is_recording = false) :
    (∀ n, d = some n → n ≠ 0 →
        (s.start_recording d).1.recorder.duration = n) ∧
      ((d = none ∨ d = some 0) →
        (s.start_recording d).1.recorder.duration = DEFAULT_DURATION) ∧
      (s.start_recording d).2.2 = (true, "Recording started") := by
  rw [start_recording_idle s d h]
  refine ⟨?_, ?_, rfl⟩
  · intro n hn hnz
    subst hn
    simp [pyTruthy, hnz]
  · rintro (hd | hd) <;> subst hd <;> simp [pyTruthy]

/-- C4 witness: the amended claim at the initial state with duration 7. -/
theorem c4_begin_duration_selection_witness :
    TranscriptionServer.init.is_recording = false ∧
      ((∀ n, (some 7 : Option Nat) = some n → n ≠ 0 →
          (TranscriptionServer.init.start_recording (some 7)).1.recorder.duration = n) ∧
        (((some 7 : Option Nat) = none ∨ (some 7 : Option Nat) = some 0) →
          (TranscriptionServer.init.start_recording (some 7)).1.recorder.duration =
            DEFAULT_DURATION) ∧
        (TranscriptionServer.init.start_recording (some 7)).2.2 =
          (true, "Recording started")) :=
  ⟨rfl, c4_begin_duration_selection TranscriptionServer.init (some 7) rfl⟩

/-- C5: counter-evidence.  At the failing input — a well-formed response
frame with error flag 0 and an empty payload (payload length L = 0) — the
client's receive path returns `none` (Python `None`): the
`if response_length > 0:` block is skipped and no `(flag, payload)` pair is
produced, so the round trip loses the flag and the empty payload instead of
yielding them back as the claim requires (callers of `send_command` then
crash unpacking the `None`). -/
theorem c5_empty_payload_decodes_to_none :
    send_command_recv (encode_response 0 []) = none := by
  rfl

/-- C6: `end()` (stop_recording_and_transcribe) called while no recording
is active returns `(False, "Error: Not currently recording")`, leaves the
whole session state unchanged, and performs no side effect: no capture
stop, no transcription, no clipboard write. -/
theorem c6_end_not_recording_noop (s : TranscriptionServer) (out : StopOutcome)
    (c : Bool) (h : s.is_recording = false) :
    s.stop_recording_and_transcribe out c =
      (s, [], false, "Error: Not currently recording") :=
  stop_recording_and_transcribe_idle s out c h

/-- C6 witness: the claim at the concrete initial state. -/
theorem c6_end_not_recording_noop_witness :
    TranscriptionServer.init.is_recording = false ∧
      TranscriptionServer.init.stop_recording_and_transcribe
          (StopOutcome.runs (ModelOutcome.ok "en" ["hi"])) true =
        (TranscriptionServer.init, [], false, "Error: Not currently recording") :=
  ⟨rfl, c6_end_not_recording_noop TranscriptionServer.init
    (StopOutcome.runs (ModelOutcome.ok "en" ["hi"])) true rfl⟩

/-- C7: `begin()` (start_recording) called while a recording is active
returns `(False, "Error: Already recording")`, leaves the whole session
state unchanged (in particular `is_recording` stays true and the duration
limit is untouched), and performs no effect: `sd.rec` is not invoked. -/
theorem c7_begin_already_recording_noop (s : TranscriptionServer)
    (d : Option Nat) (h : s.is_recording = true) :
    s.start_recording d = (s, [], false, "Error: Already recording") :=
  start_recording_already s d h

/-- C7 witness: the claim at the concrete state reached by one successful
start. -/
theorem c7_begin_already_recording_noop_witness :
    (TranscriptionServer.init.start_recording none).1.is_recording = true ∧
      (TranscriptionServer.init.start_recording none).1.start_recording (some 30) =
        ((TranscriptionServer.init.start_recording none).1, [],
          false, "Error: Already recording") :=
  ⟨rfl, c7_begin_already_recording_noop
    (TranscriptionServer.init.start_recording none).1 (some 30) rfl⟩

/-- C8: a stop command (opcode 2) whose optional 4-byte argument is present
at decode time, handled while a recording is active and with the
transcriber succeeding: the clipboard collaborator is never invoked, the
response frame is identical to the one an unsuppressed stop would produce,
and it carries error flag 0 with the processed transcription, unchanged, as
payload. -/
theorem c8_suppress_clipboard_stop (s : TranscriptionServer) (v : Nat)
    (lang : String) (segs : List String) (h : s.is_recording = true) :
    (∀ t, Effect.clipboardCopy t ∉
        (handle_client_connection s { command := 2, extra := some v }
          (StopOutcome.runs (ModelOutcome.ok lang segs))).2.1) ∧
      (handle_client_connection s { command := 2, extra := some v }
          (StopOutcome.runs (ModelOutcome.ok lang segs))).2.2 =
        (handle_client_connection s { command := 2, extra := none }
          (StopOutcome.runs (ModelOutcome.ok lang segs))).2.2 ∧
      (handle_client_connection s { command := 2, extra := some v }
          (StopOutcome.runs (ModelOutcome.ok lang segs))).2.2 =
        some (packU32 0 ++ packU32 (utf8Encode (pyTranscript segs)).length ++
          utf8Encode (pyTranscript segs)) := by
  refine ⟨?_, ?_, ?_⟩ <;>
    simp [handle_client_connection,
      stop_recording_and_transcribe_ok s lang segs false h,
      stop_recording_and_transcribe_ok s lang segs true h, pyInt]

/-- C8 witness: the claim at the concrete state reached by one successful
start, with suppression argument 1 and one transcribed segment. -/
theorem c8_suppress_clipboard_stop_witness :
    (TranscriptionServer.init.start_recording none).1.is_recording = true ∧
      ((∀ t, Effect.clipboardCopy t ∉
          (handle_client_connection (TranscriptionServer.init.start_recording none).1
            { command := 2, extra := some 1 }
            (StopOutcome.runs (ModelOutcome.ok "en" ["hello"]))).2.1) ∧
        (handle_client_connection (TranscriptionServer.init.start_recording none).1
            { command := 2, extra := some 1 }
            (StopOutcome.runs (ModelOutcome.ok "en" ["hello"]))).2.2 =
          (handle_client_connection (TranscriptionServer.init.start_recording none).1
            { command := 2, extra := none }
            (StopOutcome.runs (ModelOutcome.ok "en" ["hello"]))).2.2 ∧
        (handle_client_connection (TranscriptionServer.init.start_recording none).1
            { command := 2, extra := some 1 }
            (StopOutcome.runs (ModelOutcome.ok "en" ["hello"]))).2.2 =
          some (packU32 0 ++ packU32 (utf8Encode (pyTranscript ["hello"])).length ++
            utf8Encode (pyTranscript ["hello"]))) :=
  ⟨rfl, c8_suppress_clipboard_stop (TranscriptionServer.init.start_recording none).1
    1 "en" ["hello"] rfl⟩

/-- C9: for every nonempty batch of concurrent `begin()` calls entered
while `is_recording` is false, and every interleaving (the whole body of
`start_recording` holds `recording_lock`, so an interleaving is exactly an
order in which the lock is granted, i.e. an order of the list), exactly one
call succeeds with "Recording started" and every other call returns
"Error: Already recording".  The single `is_recording` flag is the one
recording slot, so at most one recording is active at any time. -/
theorem c9_concurrent_begins_exactly_one_success (s : TranscriptionServer)
    (ds : List (Option Nat)) (h : s.is_recording = false) (hne : ds ≠ []) :
    (runBegins s ds).2.count (true, "Recording started") = 1 ∧
      ∀ r ∈ (runBegins s ds).2,
        r = (true, "Recording started") ∨
          r = (false, "Error: Already recording") := by
  obtain ⟨d, ds', rfl⟩ := List.exists_cons_of_ne_nil hne
  rw [runBegins_idle s d ds' h]
  constructor
  · have h1 : ((((false : Bool), "Error: Already recording") :
        Bool × String) == ((true : Bool), "Recording started")) = false := by
      decide
    rw [List.count_cons, List.count_replicate, h1]
    simp
  · intro r hr
    rcases List.mem_cons.mp hr with h1 | h2
    · exact Or.inl h1
    · exact Or.inr (List.eq_of_mem_replicate h2)

/-- C9 witness: three concurrent starts from the initial state, in one
lock-grant order. -/
theorem c9_concurrent_begins_exactly_one_success_witness :
    TranscriptionServer.init.is_recording = false ∧
      ([none, some 5, some 0] : List (Option Nat)) ≠ [] ∧
      ((runBegins TranscriptionServer.init [none, some 5, some 0]).2.count
          (true, "Recording started") = 1 ∧
        ∀ r ∈ (runBegins TranscriptionServer.init [none, some 5, some 0]).2,
          r = (true, "Recording started") ∨
            r = (false, "Error: Already recording")) :=
  ⟨rfl, by decide,
    c9_concurrent_begins_exactly_one_success TranscriptionServer.init
      [none, some 5, some 0] rfl (by decide)⟩

/-- C10: every response frame the server writes carries a payload-length
field equal to the number of payload bytes that follow it.  The stop branch
frames the byte length of the encoded transcription; the start branch
frames the character count of its message, which coincides with the byte
count because both messages emitted there ("Recording started",
"Error: Already recording") are ASCII.  The bound hypothesis reflects that
`struct.pack(">I", ...)` raises beyond `2^32 - 1`, so larger payloads never
produce a frame at all. -/
theorem c10_payload_length_field_correct (s : TranscriptionServer)
    (req : Request) (out : StopOutcome) (frame : List Nat)
    (hf : (handle_client_connection s req out).2.2 = some frame)
    (hlt : (frame.drop 8).length < 4294967296) :
    unpackU32 (frame.drop 4) = (frame.drop 8).length := by
  by_cases h1 : req.command = 1
  · by_cases hrec : s.is_recording = true
    · simp only [handle_client_connection, h1, if_true, if_pos,
        start_recording_already s req.extra hrec, Option.some.injEq] at hf
      subst hf
      decide
    · rw [Bool.not_eq_true] at hrec
      simp only [handle_client_connection, h1, if_true, if_pos,
        start_recording_idle s req.extra hrec, Option.some.injEq] at hf
      subst hf
      decide
  · by_cases h2 : req.command = 2
    · rcases hst : s.stop_recording_and_transcribe out req.extra.isNone
        with ⟨s1, effs, success, t⟩
      simp only [handle_client_connection, if_neg h1, if_pos h2, hst,
        Option.some.injEq] at hf
      subst hf
      rw [List.append_assoc] at hlt ⊢
      rw [drop4_packU32, drop8_frame] at *
      exact unpackU32_packU32 _ _ hlt
    · simp only [handle_client_connection, h1, h2, if_neg, if_false] at hf
      simp at hf

/-- C10 witness: the invariant at the concrete start-command frame. -/
theorem c10_payload_length_field_correct_witness :
    (handle_client_connection TranscriptionServer.init
        { command := 1, extra := none }
        (StopOutcome.runs (ModelOutcome.ok "en" []))).2.2 =
      some (packU32 0 ++ packU32 17 ++ utf8Encode "Recording started") ∧
      (((packU32 0 ++ packU32 17 ++ utf8Encode "Recording started").drop 8).length
          < 4294967296) ∧
      unpackU32 ((packU32 0 ++ packU32 17 ++ utf8Encode "Recording started").drop 4) =
        ((packU32 0 ++ packU32 17 ++ utf8Encode "Recording started").drop 8).length :=
  ⟨rfl, by decide,
    c10_payload_length_field_correct TranscriptionServer.init
      { command := 1, extra := none }
      (StopOutcome.runs (ModelOutcome.ok "en" []))
      (packU32 0 ++ packU32 17 ++ utf8Encode "Recording started") rfl (by decide)⟩

end WhisperServer
